import Mathlib

/-!
Verification development for a small C++ demonstration program
(ZPR_zad_dodatkowe_jthread.cpp) contrasting manual `std::thread`
lifetime management with `std::jthread`'s automatic
request-stop-and-join, together with the cooperative cancellation
primitive `std::stop_source`/`std::stop_token`.

The demonstration functions (`incr`, `przykladThread`,
`przykladJThread`, `worker`, `przykladStopTokenThread`,
`przykladStopToken`) are embedded from the source.  The standard
library components `std::jthread` and `std::stop_token` themselves are
not part of the repository's sources; their behaviour, as described by
the specification (Cancellation Signal, Managed Worker Thread), is
modelled from the spec and marked as such in the doc comments.
-/

/- ===== Cancellation Signal (std::stop_source / std::stop_token) ===== -/

/-- Modelled from the spec: the Cancellation Signal's shared state cell is a
single boolean, initially "not requested" (`std::stop_source` construction;
the implementation of `std::stop_source` is not in src/). -/
def StopSignal.start : Bool := false

/-- Modelled from the spec: `requestCancellation()` (`request_stop`) sets the
shared state to "requested", unconditionally; idempotent, no error
conditions (the implementation of `std::stop_source` is not in src/). -/
def StopSignal.requestCancellation (_s : Bool) : Bool := true

/-- Modelled from the spec: `isCancellationRequested()` (`stop_requested`)
reads the shared state cell (the implementation of `std::stop_token` is not
in src/). -/
def StopSignal.isCancellationRequested (s : Bool) : Bool := s

/-- A producer-side call on the Cancellation Signal.  The only
state-changing operation the spec gives the producer is
`requestCancellation()`. -/
inductive StopSignal.SigOp
  | request
  deriving DecidableEq, Repr

/-- Run a finite sequence of producer calls against a signal state. -/
def StopSignal.run : List StopSignal.SigOp → Bool → Bool
  | [], s => s
  | _ :: ops, s => StopSignal.run ops (StopSignal.requestCancellation s)

/- ===== incr (src line 21-28) ===== -/

/-- The busy loop of `incr`: `while (val < boundary) ++val;` — embeds
src/ZPR_zad_dodatkowe_jthread.cpp lines 23-25.  Returns the final value of
the local counter `val`. -/
def incrLoop (boundary val : Nat) : Nat :=
  if val < boundary then incrLoop boundary (val + 1) else val
termination_by boundary - val

/-- `incr(boundary)`: the local counter starts at 0 and the function's
observable result is the final counter value it prints (src lines 21-28).
`incr` takes no stop token and never polls any cancellation state. -/
def incr (boundary : Nat) : Nat := incrLoop boundary 0

/- ===== worker (src line 83-89) ===== -/

/-- The polling loop of `worker(stop_token)` (src lines 84-87), embedded over
the finite sequence of values the loop's successive polls of
`stoken.stop_requested()` observe.  `workerRun obs = some n` means the loop
exited after `n` iterations, because poll number `n` observed `true`;
`workerRun obs = none` means the loop was still running after all the polls
in `obs` (it never stopped within that window). -/
def workerRun : List Bool → Option Nat
  | [] => none
  | p :: ps => if p then some 0 else Option.map (fun n => n + 1) (workerRun ps)

/- ===== the counted for-loops of przykladThread / przykladJThread ===== -/

/-- The shared loop shape of `przykladThread` (src lines 48-55) and
`przykladJThread` (src lines 70-75): `for (i = 0; i <= bound; ++i) if (i == e)
{ early effects; return; }` followed by fall-through effects.  The result is
the sequence of observable events the execution produces from counter value
`i` onward. -/
def loopEarly {α : Type} (e bound i : Nat) (early late : List α) : List α :=
  if i ≤ bound then
    if i = e then early else loopEarly e bound (i + 1) early late
  else late
termination_by bound + 1 - i

/-- `numeric_limits<uint32_t>::max()`. -/
def uMAX : Nat := 4294967295

/-- Observable events of `przykladThread` (src lines 44-59). -/
inductive TEvent
  | joinAt51
  | printWejscie
  | printPoza
  | joinAt58
  deriving DecidableEq, Repr

/-- The event sequence of an execution of `przykladThread` (src lines
44-59): `end = uMAX/32`, loop bound `uMAX/24`; hitting `i == end` performs
`t.join()` (line 51), prints "Wejscie do if()" and returns; falling through
prints "Poza forem" and performs `t.join()` (line 58). -/
def przykladThreadTrace : List TEvent :=
  loopEarly (uMAX / 32) (uMAX / 24) 0
    [TEvent.joinAt51, TEvent.printWejscie]
    [TEvent.printPoza, TEvent.joinAt58]

/-- Modelled from the spec: `std::thread`'s destructor (not in src/) invokes
`std::terminate` exactly when the thread is still joinable, i.e. when the
execution path performed no join on `t` before `t` was destroyed. -/
def threadDtorTerminates (tr : List TEvent) : Bool :=
  tr.count TEvent.joinAt51 + tr.count TEvent.joinAt58 == 0

/-- Observable events of `przykladJThread` (src lines 66-77):
prints, plus which path the `jthread`'s destruction happens on. -/
inductive JEvent
  | printWejscie
  | printPoza
  | dtorOnEarlyReturn
  | dtorOnFallThrough
  deriving DecidableEq, Repr

/-- The event sequence of an execution of `przykladJThread` (src lines
66-77): same loop shape and constants as `przykladThread`; hitting
`i == end` prints "Wejscie" and returns (the jthread is destroyed on that
early-return path); falling through prints "Poza forem" and the jthread is
destroyed at the end of the function body. -/
def przykladJThreadTrace : List JEvent :=
  loopEarly (uMAX / 32) (uMAX / 24) 0
    [JEvent.printWejscie, JEvent.dtorOnEarlyReturn]
    [JEvent.printPoza, JEvent.dtorOnFallThrough]

/- ===== Managed Worker Thread (std::jthread), modelled from the spec ===== -/

/-- The two lifecycle states the spec gives the Managed Worker Thread. -/
inductive LifeState
  | live
  | completed
  deriving DecidableEq, Repr

/-- The one error kind of the design: invalid-operation. -/
inductive JError
  | invalidOperation
  deriving DecidableEq, Repr

/-- Modelled from the spec: a Managed Worker Thread (`std::jthread`, whose
implementation is not in src/) carries a liveness flag and an embedded
Cancellation Signal it owns. -/
structure JThread where
  st : LifeState
  sig : Bool
  deriving DecidableEq, Repr

/-- Modelled from the spec: construction launches the callable and sets the
liveness flag; the embedded signal starts not-requested. -/
def JThread.make : JThread := { st := LifeState.live, sig := false }

/-- Modelled from the spec: `waitForCompletion()` (`join`) blocks until the
work function returns and clears the liveness flag; it fails with
invalid-operation when the object is no longer Live (the double-join
hazard). -/
def JThread.waitForCompletion (t : JThread) : Except JError JThread :=
  match t.st with
  | LifeState.live => Except.ok { t with st := LifeState.completed }
  | LifeState.completed => Except.error JError.invalidOperation

/-- Modelled from the spec: `release()` (`detach`) clears the liveness flag,
with the same invalid-operation failure condition as
`waitForCompletion()`. -/
def JThread.release (t : JThread) : Except JError JThread :=
  match t.st with
  | LifeState.live => Except.ok { t with st := LifeState.completed }
  | LifeState.completed => Except.error JError.invalidOperation

/-- Modelled from the spec: the thread-level `requestCancellation()`
forwards to the embedded Cancellation Signal's producer side; it is total
(valid in any state) and touches only the signal. -/
def JThread.requestCancellation (t : JThread) : JThread :=
  { t with sig := StopSignal.requestCancellation t.sig }

/-- Modelled from the spec: destruction of a Live object first requests
cancellation on the embedded signal, then waits for the work function, then
releases resources; destruction of a Completed object does nothing. -/
def JThread.destroy (t : JThread) : JThread :=
  match t.st with
  | LifeState.live =>
      { st := LifeState.completed, sig := StopSignal.requestCancellation t.sig }
  | LifeState.completed => t

/-- The operations of the Managed Worker Thread lifecycle. -/
inductive JOp
  | wait
  | rel
  | cancel
  | dtor
  deriving DecidableEq, Repr

/-- One lifecycle step: a failing `waitForCompletion()`/`release()` raises
invalid-operation and leaves the object's state untouched (no silent
success, no corruption). -/
def applyOp (t : JThread) : JOp → JThread
  | JOp.wait =>
      match t.waitForCompletion with
      | Except.ok u => u
      | Except.error _ => t
  | JOp.rel =>
      match t.release with
      | Except.ok u => u
      | Except.error _ => t
  | JOp.cancel => t.requestCancellation
  | JOp.dtor => t.destroy

/-- Modelled from the spec: which operations block the calling thread until
the work function returns.  `waitForCompletion()` on a Live object blocks,
as does the implicit wait inside destruction of a Live object;
`requestCancellation()` and `release()` never block. -/
def opBlocks (t : JThread) : JOp → Bool
  | JOp.wait => decide (t.st = LifeState.live)
  | JOp.dtor => decide (t.st = LifeState.live)
  | JOp.cancel => false
  | JOp.rel => false

/-- Ordered observable events of destroying a Managed Worker Thread. -/
inductive DtorEvent
  | cancelRequested
  | workReturned
  | dtorReturned
  deriving DecidableEq, Repr

/-- Modelled from the spec: the event order of `JThread.destroy`.  On a Live
object: request cancellation first, then the work function returns (the
destructor's wait ends only then), and only after that does the destructor
return control to the caller.  On a Completed object the destructor just
returns. -/
def jthreadDtorTrace (t : JThread) : List DtorEvent :=
  match t.st with
  | LifeState.live =>
      [DtorEvent.cancelRequested, DtorEvent.workReturned, DtorEvent.dtorReturned]
  | LifeState.completed => [DtorEvent.dtorReturned]

/-- Event `a` occurs strictly before event `b` in trace `tr`. -/
def occursBefore {α : Type} (a b : α) (tr : List α) : Prop :=
  ∃ n m, n < m ∧ tr.get? n = some a ∧ tr.get? m = some b

/- ===== helper lemmas ===== -/

/-- The `incr` busy loop counts up to exactly `boundary` from any start
value not above it. -/
theorem incrLoop_eq (b v : Nat) (h : v ≤ b) : incrLoop b v = b := by
  unfold incrLoop
  by_cases hlt : v < b
  · rw [if_pos hlt]
    exact incrLoop_eq b (v + 1) hlt
  · rw [if_neg hlt]
    omega
termination_by b - v

/-- A counted loop whose early-exit index lies within the bound always
takes the early exit. -/
theorem loopEarly_hits {α : Type} (e bound i : Nat) (early late : List α)
    (hi : i ≤ e) (he : e ≤ bound) :
    loopEarly e bound i early late = early := by
  unfold loopEarly
  rw [if_pos (Nat.le_trans hi he)]
  by_cases heq : i = e
  · rw [if_pos heq]
  · rw [if_neg heq]
    exact loopEarly_hits e bound (i + 1) early late
      (Nat.lt_of_le_of_ne hi heq) he
termination_by bound + 1 - i

/-- Once the signal state is "requested", any further sequence of producer
calls leaves it "requested". -/
theorem StopSignal.run_true (ops : List StopSignal.SigOp) :
    StopSignal.run ops true = true := by
  induction ops with
  | nil => rfl
  | cons op ops ih => simpa [StopSignal.run, StopSignal.requestCancellation] using ih

/-- A nonempty sequence of producer calls leaves the signal "requested",
from any starting state. -/
theorem StopSignal.run_ne_nil (ops : List StopSignal.SigOp) (s : Bool)
    (h : ops ≠ []) : StopSignal.run ops s = true := by
  cases ops with
  | nil => exact absurd rfl h
  | cons op ops =>
      simpa [StopSignal.run, StopSignal.requestCancellation]
        using StopSignal.run_true ops

/-- If every poll the worker loop makes observes `false`, the loop never
exits within that window. -/
theorem workerRun_all_false (obs : List Bool)
    (h : ∀ x ∈ obs, x = false) : workerRun obs = none := by
  induction obs with
  | nil => rfl
  | cons p ps ih =>
      have hp : p = false := h p (List.mem_cons_self p ps)
      have hrest : workerRun ps = none := ih fun x hx => h x (List.mem_cons_of_mem p hx)
      simp [workerRun, hp, hrest]

/-- When the worker loop exits after `n` iterations, poll `n` observed
`true` and every earlier poll observed `false`: the loop exits only by
observing the flag. -/
theorem workerRun_some (obs : List Bool) (n : Nat)
    (h : workerRun obs = some n) :
    obs.get? n = some true ∧ ∀ k, k < n → obs.get? k = some false := by
  induction obs generalizing n with
  | nil => simp [workerRun] at h
  | cons p ps ih =>
      by_cases hp : p = true
      · simp [workerRun, hp] at h
        subst h
        simp [hp]
      · have hp' : p = false := by
          cases p
          · rfl
          · exact absurd rfl hp
        simp [workerRun, hp'] at h
        obtain ⟨m, hm, hmn⟩ := h
        subst hmn
        obtain ⟨h1, h2⟩ := ih m hm
        constructor
        · simpa using h1
        · intro k hk
          cases k with
          | zero => simp [hp']
          | succ k' =>
              have : k' < m := by omega
              simpa using h2 k' this

/- ===== claim theorems ===== -/

/-- Claim C1: destruction of a Managed Worker Thread whose liveness flag is
still true first requests cancellation on the embedded Cancellation Signal,
then blocks until the work function has returned, and only then returns
control to the caller; after the request, the work function's next poll of
the consumer handle observes cancellation and the polling loop exits. -/
theorem C1_dtor_cancels_then_waits (t : JThread) (h : t.st = LifeState.live) :
    occursBefore DtorEvent.cancelRequested DtorEvent.workReturned (jthreadDtorTrace t) ∧
    occursBefore DtorEvent.workReturned DtorEvent.dtorReturned (jthreadDtorTrace t) ∧
    (JThread.destroy t).sig = true ∧
    workerRun [StopSignal.isCancellationRequested (JThread.destroy t).sig] = some 0 := by
  have htr : jthreadDtorTrace t =
      [DtorEvent.cancelRequested, DtorEvent.workReturned, DtorEvent.dtorReturned] := by
    unfold jthreadDtorTrace
    rw [h]
  have hsig : (JThread.destroy t).sig = true := by
    obtain ⟨st, sg⟩ := t
    simp only at h
    subst h
    rfl
  refine ⟨?_, ?_, hsig, ?_⟩
  · exact ⟨0, 1, by omega, by rw [htr]; rfl, by rw [htr]; rfl⟩
  · exact ⟨1, 2, by omega, by rw [htr]; rfl, by rw [htr]; rfl⟩
  · rw [hsig]
    rfl

/-- Witness for C1 at a freshly constructed (hence Live) Managed Worker
Thread. -/
theorem C1_dtor_witness :
    JThread.make.st = LifeState.live ∧
    occursBefore DtorEvent.cancelRequested DtorEvent.workReturned
      (jthreadDtorTrace JThread.make) :=
  ⟨rfl, (C1_dtor_cancels_then_waits JThread.make rfl).1⟩

/-- Claim C2: on a Cancellation Signal, `isCancellationRequested` returns
false before the first `requestCancellation` call, true after any nonempty
sequence of calls, and stays true under any further sequence of calls:
the requested state is monotonic, one-shot, and the call is idempotent. -/
theorem C2_signal_monotone (ops more : List StopSignal.SigOp) (h : ops ≠ []) :
    StopSignal.isCancellationRequested StopSignal.start = false ∧
    StopSignal.isCancellationRequested (StopSignal.run ops StopSignal.start) = true ∧
    StopSignal.isCancellationRequested
      (StopSignal.run more (StopSignal.run ops StopSignal.start)) = true := by
  have h1 : StopSignal.run ops StopSignal.start = true := StopSignal.run_ne_nil ops _ h
  refine ⟨rfl, ?_, ?_⟩
  · rw [h1]
    rfl
  · rw [h1, StopSignal.run_true]
    rfl

/-- Witness for C2: one producer call, then one more. -/
theorem C2_signal_witness :
    ([StopSignal.SigOp.request] ≠ ([] : List StopSignal.SigOp)) ∧
    StopSignal.isCancellationRequested
      (StopSignal.run [StopSignal.SigOp.request] StopSignal.start) = true :=
  ⟨by decide,
   (C2_signal_monotone [StopSignal.SigOp.request] [StopSignal.SigOp.request]
      (by decide)).2.1⟩

/-- Claim C3: `waitForCompletion()` or `release()` on an object whose
liveness flag is already false raises invalid-operation and leaves the
object's state untouched; in particular a second `waitForCompletion()`
after a first one, and `waitForCompletion()` after `release()` (either
order), raise invalid-operation on the second call. -/
theorem C3_invalid_operation (t : JThread) (h : t.st = LifeState.completed) :
    t.waitForCompletion = Except.error JError.invalidOperation ∧
    t.release = Except.error JError.invalidOperation ∧
    applyOp t JOp.wait = t ∧
    applyOp t JOp.rel = t ∧
    (∀ u : JThread, u.st = LifeState.live →
      (u.waitForCompletion.bind JThread.waitForCompletion =
         Except.error JError.invalidOperation ∧
       u.waitForCompletion.bind JThread.release =
         Except.error JError.invalidOperation ∧
       u.release.bind JThread.waitForCompletion =
         Except.error JError.invalidOperation ∧
       u.release.bind JThread.release =
         Except.error JError.invalidOperation)) := by
  have hw : t.waitForCompletion = Except.error JError.invalidOperation := by
    unfold JThread.waitForCompletion
    rw [h]
  have hr : t.release = Except.error JError.invalidOperation := by
    unfold JThread.release
    rw [h]
  refine ⟨hw, hr, ?_, ?_, ?_⟩
  · simp [applyOp, hw]
  · simp [applyOp, hr]
  · intro u hu
    have hwu : u.waitForCompletion = Except.ok { u with st := LifeState.completed } := by
      unfold JThread.waitForCompletion
      rw [hu]
    have hru : u.release = Except.ok { u with st := LifeState.completed } := by
      unfold JThread.release
      rw [hu]
    refine ⟨?_, ?_, ?_, ?_⟩ <;>
      simp [Except.bind, JThread.waitForCompletion, JThread.release, hu]

/-- Witness for C3 at a concrete Completed object and a concrete Live
object. -/
theorem C3_invalid_operation_witness :
    ({ st := LifeState.completed, sig := false } : JThread).st = LifeState.completed ∧
    ({ st := LifeState.completed, sig := false } : JThread).waitForCompletion =
      Except.error JError.invalidOperation :=
  ⟨rfl, (C3_invalid_operation { st := LifeState.completed, sig := false } rfl).1⟩

/-- Claim C4: cancellation is cooperative, never preemptive.  A producer
call only sets the shared flag; `incr`, which takes no consumer handle and
never polls, always runs its full count of iterations to completion
(its behaviour cannot depend on any cancellation request); and `worker`,
which does poll, never exits its loop while every poll observes false, and
exits exactly at the first poll that observes the flag. -/
theorem C4_cooperative_cancellation :
    (∀ s : Bool,
      StopSignal.isCancellationRequested (StopSignal.requestCancellation s) = true) ∧
    (∀ b : Nat, incr b = b) ∧
    (∀ obs : List Bool, (∀ x ∈ obs, x = false) → workerRun obs = none) ∧
    (∀ (obs : List Bool) (n : Nat), workerRun obs = some n →
      obs.get? n = some true ∧ ∀ k, k < n → obs.get? k = some false) := by
  refine ⟨fun s => rfl, fun b => incrLoop_eq b 0 (Nat.zero_le b), ?_, ?_⟩
  · exact workerRun_all_false
  · exact workerRun_some

/-- Witness for C4: a window of two polls that both observe false. -/
theorem C4_cooperative_witness :
    (∀ x ∈ ([false, false] : List Bool), x = false) ∧
    workerRun [false, false] = none :=
  ⟨by decide, C4_cooperative_cancellation.2.2.1 [false, false] (by decide)⟩

/-- Claim C6: the Managed Worker Thread lifecycle is the two-state machine
with states Live and Completed: construction yields Live, Completed is
terminal under every operation, `requestCancellation` never changes the
lifecycle state, and the only operations that move an object out of Live
are `waitForCompletion`, `release` and destruction. -/
theorem C6_state_machine :
    JThread.make.st = LifeState.live ∧
    (∀ (t : JThread) (op : JOp), t.st = LifeState.completed →
      (applyOp t op).st = LifeState.completed) ∧
    (∀ t : JThread, (applyOp t JOp.cancel).st = t.st) ∧
    (∀ (t : JThread) (op : JOp), (applyOp t op).st = LifeState.completed →
      t.st = LifeState.completed ∨ op = JOp.wait ∨ op = JOp.rel ∨ op = JOp.dtor) := by
  refine ⟨rfl, ?_, ?_, ?_⟩
  · intro t op h
    obtain ⟨st, sig⟩ := t
    simp only at h
    subst h
    cases op <;>
      simp [applyOp, JThread.waitForCompletion, JThread.release,
        JThread.requestCancellation, JThread.destroy]
  · intro t
    simp [applyOp, JThread.requestCancellation]
  · intro t op h
    cases op with
    | wait => exact Or.inr (Or.inl rfl)
    | rel => exact Or.inr (Or.inr (Or.inl rfl))
    | dtor => exact Or.inr (Or.inr (Or.inr rfl))
    | cancel =>
        left
        simpa [applyOp, JThread.requestCancellation] using h

/-- Witness for C6: the Completed state is terminal at a concrete object
and operation. -/
theorem C6_state_machine_witness :
    ({ st := LifeState.completed, sig := true } : JThread).st = LifeState.completed ∧
    (applyOp { st := LifeState.completed, sig := true } JOp.wait).st =
      LifeState.completed :=
  ⟨rfl, C6_state_machine.2.1 { st := LifeState.completed, sig := true } JOp.wait rfl⟩

/-- Claim C7: `requestCancellation` on a Managed Worker Thread is valid in
every state: it is a total operation that sets the embedded signal,
never changes the lifecycle state, never blocks, and — like the
cancellation poll — cannot fail (both are total functions, with no error
outcome in their result type). -/
theorem C7_requestCancellation_total :
    (∀ t : JThread,
      (JThread.requestCancellation t).sig = true ∧
      (JThread.requestCancellation t).st = t.st ∧
      opBlocks t JOp.cancel = false ∧
      StopSignal.isCancellationRequested (JThread.requestCancellation t).sig = true) ∧
    (∀ s : Bool, StopSignal.requestCancellation s = true) := by
  refine ⟨fun t => ⟨rfl, rfl, rfl, rfl⟩, fun s => rfl⟩

/-- Claim C8: in `przykladThread`, since `end = uMAX/32` is strictly below
the loop bound `uMAX/24`, the branch `i == end` is always taken: the join
at line 51 runs, "Wejscie do if()" is printed and the function returns from
inside the loop; the join at line 58 is unreachable, `t.join()` executes
exactly once on the only execution path, and the `std::thread` is never
destroyed while joinable (no `std::terminate`). -/
theorem C8_przykladThread_joins_once :
    przykladThreadTrace = [TEvent.joinAt51, TEvent.printWejscie] ∧
    przykladThreadTrace.count TEvent.joinAt58 = 0 ∧
    przykladThreadTrace.count TEvent.joinAt51 = 1 ∧
    uMAX / 32 < uMAX / 24 ∧
    threadDtorTerminates przykladThreadTrace = false := by
  have htr : przykladThreadTrace = [TEvent.joinAt51, TEvent.printWejscie] :=
    loopEarly_hits (uMAX / 32) (uMAX / 24) 0 _ _ (Nat.zero_le _) (by decide)
  refine ⟨htr, ?_, ?_, by decide, ?_⟩
  · rw [htr]
    rfl
  · rw [htr]
    rfl
  · unfold threadDtorTerminates
    rw [htr]
    rfl

/-- Claim C10: `przykladJThread` always takes the early-return path:
`end = uMAX/32` is strictly below the loop bound `uMAX/24`, so `i == end`
is reached, "Wejscie" is printed and the function returns from inside the
loop; "Poza forem" is unreachable and the jthread is destroyed on the
early-return path, never on the fall-through path. -/
theorem C10_przykladJThread_early_return :
    przykladJThreadTrace = [JEvent.printWejscie, JEvent.dtorOnEarlyReturn] ∧
    JEvent.printPoza ∉ przykladJThreadTrace ∧
    JEvent.dtorOnFallThrough ∉ przykladJThreadTrace ∧
    uMAX / 32 < uMAX / 24 := by
  have htr : przykladJThreadTrace = [JEvent.printWejscie, JEvent.dtorOnEarlyReturn] :=
    loopEarly_hits (uMAX / 32) (uMAX / 24) 0 _ _ (Nat.zero_le _) (by decide)
  refine ⟨htr, ?_, ?_, by decide⟩
  · rw [htr]
    decide
  · rw [htr]
    decide

/-- Claim C9: `incr(boundary)` terminates for every `uint32_t` boundary
(the embedding is a total function), and the counter value it prints
equals `boundary`; in particular it is 0 when `boundary` is 0. -/
theorem C9_incr_value (b : Nat) (h : b < 4294967296) :
    incr b = b ∧ incr 0 = 0 :=
  ⟨incrLoop_eq b 0 (Nat.zero_le b), incrLoop_eq 0 0 (Nat.le_refl 0)⟩

/-- Witness for C9 at boundary 42. -/
theorem C9_incr_witness : 42 < 4294967296 ∧ incr 42 = 42 :=
  ⟨by decide, (C9_incr_value 42 (by decide)).1⟩
